import Mathlib

/-!
Shallow embedding of `src/components/map/mapHelpersLatLong.js` (auspice).

Modelling conventions:
* JS numbers are modelled as `Rat` (all operations the claims touch are exact
  rational arithmetic: additions of ±360 offsets, comparisons, and the linear
  date interpolation `a * (1 - t) + b * t` of d3's `interpolateNumber`).
* The active geographic resolution is fixed throughout a build/update, so
  `getTraitFromNode(n, geoResolution)` is embedded as the node's `trait` field
  (a JS string-or-undefined, i.e. `Option String`), and the lookup table
  `metadata.geographicInfo[geoResolution]` as `geo : String → Option LatLong`.
* JS objects used as string-keyed dictionaries (`demeToColorMap`,
  `demeIndices`, `transmissionIndices`, `demeToDemeCounts`) are embedded as
  association lists that preserve JS insertion order: updating an existing key
  keeps its position, a new key is appended at the end.
* External collaborators (the leaflet projection `map.latLngToLayerPoint`, the
  bezier curve service, d3's pie layout and `averageColorsDict`) are opaque
  function parameters bundled in `Services`.  `twoPi` stands for the constant
  `2 * Math.PI` appearing in the update-path arc arithmetic.
* JS exceptions are modelled with `Except String`: an unguarded property
  access on a possibly-`undefined` value is an `Except.error`; a
  `try { .. } catch { .. }` is an explicit `match` absorbing the error.
* A JS `Set` is a duplicate-free insertion-ordered list; `demesMissingLatLongs`
  may receive `undefined` in JS, hence `List (Option String)`.
-/

namespace MapHelpers

/-- A projected screen point (leaflet `Point` with `x`/`y`). -/
structure Point where
  x : Rat
  y : Rat
deriving DecidableEq

/-- An entry of the geographic lookup table. -/
structure LatLong where
  latitude : Rat
  longitude : Rat
deriving DecidableEq

/-- `const westBound = -360;` -/
def westBound : Rat := -360

/-- `const eastBound = 360;` -/
def eastBound : Rat := 360

/-- The opaque leaflet map: `map.latLngToLayerPoint(new L.LatLng(lat, long))`. -/
def LeafletMap : Type := Rat → Rat → Point

/-- `leafletLatLongToLayerPoint(lat, long, map)`. -/
def leafletLatLongToLayerPoint (lat long : Rat) (map : LeafletMap) : Point :=
  map lat long

/-- `maybeGetTransmissionPair(latOrig, longOrig, latDest, longDest, map)`:
returns the projected origin/destination pair when the candidate passes the
bounds-and-wrap validity check, otherwise `null`. -/
def maybeGetTransmissionPair (latOrig longOrig latDest longDest : Rat)
    (map : LeafletMap) : Option (Point × Point) :=
  if (longOrig > westBound ∨ longDest > westBound)
      ∧ (longOrig < eastBound ∨ longDest < eastBound)
      ∧ |longOrig - longDest| < 180 then
    some (leafletLatLongToLayerPoint latOrig longOrig map,
          leafletLatLongToLayerPoint latDest longDest map)
  else
    none

/-- The data carried by one tree node that this module reads:
`getTraitFromNode(n, geoResolution)` (string or `undefined`), `n.arrayIdx`
and `n.num_date.value`. -/
structure NodeData where
  trait : Option String
  arrayIdx : Nat
  numDate : Rat
deriving DecidableEq

/-- A node of the flat `nodes` array.  `children` is `undefined` for tips;
the module only ever reads one level of children, so children are stored as
their `NodeData`. -/
structure TreeNode where
  data : NodeData
  children : Option (List NodeData)
deriving DecidableEq

/-- JS truthiness of a trait value: `undefined` and `""` are falsy, every
other string is truthy. -/
def locTruthy : Option String → Bool
  | none => false
  | some s => s ≠ ""

/-- `NODE_NOT_VISIBLE` from `util/globals` (the smallest visibility state). -/
def NODE_NOT_VISIBLE : Nat := 0

/-- Per (location, color) counts. -/
structure ColorCount where
  nVisible : Nat
  nTotal : Nat
deriving DecidableEq

/-- Association-list read, mirroring a JS object property read. -/
def alistGet {α : Type} : List (String × α) → String → Option α
  | [], _ => none
  | (k', v) :: rest, k => if k' = k then some v else alistGet rest k

/-- Association-list write, mirroring a JS object property write: an existing
key is updated in place (insertion order kept), a new key is appended. -/
def alistSet {α : Type} : List (String × α) → String → α → List (String × α)
  | [], k, v => [(k, v)]
  | (k', v') :: rest, k, v =>
    if k' = k then (k, v) :: rest else (k', v') :: alistSet rest k v

/-- The nested map `location -> color -> ColorCount` built by
`getColorsForAllDemes` (JS nested objects, insertion-ordered). -/
abbrev ColorMap : Type := List (String × List (String × ColorCount))

/-- One step of the `nodes.forEach((n, i) => ...)` loop of
`getColorsForAllDemes`: skip internal nodes, skip falsy locations, then
increment `nTotal` and (if visible) `nVisible` for the node's
(location, color) pair. -/
def demeColorStep (visibility : Nat → Nat) (nodeColors : Nat → String)
    (acc : ColorMap) (p : Nat × TreeNode) : ColorMap :=
  let i := p.1
  let n := p.2
  if n.children.isSome then acc
  else if locTruthy n.data.trait then
    let location := n.data.trait.getD ""
    let color := nodeColors i
    let inner := (alistGet acc location).getD []
    let cc := (alistGet inner color).getD ⟨0, 0⟩
    let cc' : ColorCount :=
      ⟨cc.nVisible + (if visibility i ≠ NODE_NOT_VISIBLE then 1 else 0),
       cc.nTotal + 1⟩
    alistSet acc location (alistSet inner color cc')
  else acc

/-- `getColorsForAllDemes(nodes, visibility, geoResolution, nodeColors)`
(the geographic resolution is folded into each node's `trait` field). -/
def getColorsForAllDemes (nodes : List TreeNode) (visibility : Nat → Nat)
    (nodeColors : Nat → String) : ColorMap :=
  nodes.enum.foldl (demeColorStep visibility nodeColors) []

/-- Convenience read of a (location, color) cell of a `ColorMap`; absent
entries read as `{nVisible: 0, nTotal: 0}`. -/
def lookupColorCount (m : ColorMap) (location color : String) : ColorCount :=
  (alistGet ((alistGet m location).getD []) color).getD ⟨0, 0⟩

/-- The opaque external collaborators of this module. -/
structure Services where
  /-- the leaflet projection used by `leafletLatLongToLayerPoint` -/
  mapProj : LeafletMap
  /-- `bezier(origin, destination, extend)` from `transmissionBezier` -/
  bezier : Point → Point → Nat → List Point
  /-- d3's `pie()`: one `(startAngle, endAngle)` per input value, same order
  and length as the input value list -/
  pieLayout : List Rat → List (Rat × Rat)
  /-- `averageColorsDict` from `util/colorHelpers` -/
  averageColorsDict : List (String × ColorCount) → String
  /-- stands for the real constant `2 * Math.PI` used when the update path
  recomputes arc angles -/
  twoPi : Rat

/-- One slice of a deme's pie chart (a d3 arc plus the fields the builder
adds: `color`, `innerRadius`, `demeDataIdx`). -/
structure Arc where
  value : Rat
  startAngle : Rat
  endAngle : Rat
  color : String
  innerRadius : Rat
  demeDataIdx : Nat
deriving DecidableEq

/-- One emitted deme marker.  In JS exactly one of `arcs` (pie mode) and
`color` (blended mode) is present; both are `Option` here. -/
structure Deme where
  name : String
  count : Nat
  latitude : Rat
  longitude : Rat
  coords : Point
  color : Option String
  arcs : Option (List Arc)
deriving DecidableEq

/-- The arcs of one pie chart: d3's layout output zipped with the colors (the
service contract guarantees the pie layout preserves input order and length),
then decorated exactly as the `for (let i=0; i<arcs.length; i++)` loop does. -/
def buildArcs (pieLayout : List Rat → List (Rat × Rat)) (colors : List String)
    (values : List Rat) (demeDataIdx : Nat) : List Arc :=
  ((pieLayout values).zip (colors.zip values)).map
    (fun q => ⟨q.2.2, q.1.1, q.1.2, q.2.1, 0, demeDataIdx⟩)

/-- The body of the `for (const [location, colorCounts] of ...)` loop of
`setupDemeData`, acting on the pair (demeData, demeIndices).  The JS `index`
counter always equals `demeData.length`, so a single length read stands for
both `index` and `demeDataIdx`. -/
def setupDemeStep (S : Services) (geo : String → Option LatLong)
    (pieChart : Bool) (offset : Rat)
    (st : List Deme × List (String × List Nat))
    (entry : String × List (String × ColorCount)) :
    List Deme × List (String × List Nat) :=
  let location := entry.1
  let colorCounts := entry.2
  let found := geo location
  let lat : Rat := match found with | some ll => ll.latitude | none => 0
  let long : Rat := match found with | some ll => ll.longitude + offset | none => 0
  let goodDeme : Bool := found.isSome
  let coords := leafletLatLongToLayerPoint lat long S.mapProj
  let colors := colorCounts.map (fun c => c.1)
  let nVisibleTipsInDeme := (colorCounts.map (fun c => c.2.nVisible)).sum
  if long > westBound ∧ long < eastBound ∧ goodDeme = true then
    let demeDataIdx := st.1.length
    let base : Deme :=
      { name := location, count := nVisibleTipsInDeme, latitude := lat,
        longitude := long, coords := coords, color := none, arcs := none }
    let deme :=
      if pieChart then
        { base with arcs := some (buildArcs S.pieLayout colors
            (colorCounts.map (fun c => (c.2.nVisible : Rat))) demeDataIdx) }
      else
        { base with color := some (S.averageColorsDict colorCounts) }
    (st.1 ++ [deme],
     match alistGet st.2 location with
     | some idxs => alistSet st.2 location (idxs ++ [demeDataIdx])
     | none => alistSet st.2 location [demeDataIdx])
  else st

/-- `setupDemeData(nodes, visibility, geoResolution, nodeColors, triplicate,
metadata, map, pieChart)`, returning `{demeData, demeIndices}`. -/
def setupDemeData (S : Services) (nodes : List TreeNode)
    (visibility : Nat → Nat) (nodeColors : Nat → String) (triplicate : Bool)
    (geo : String → Option LatLong) (pieChart : Bool) :
    List Deme × List (String × List Nat) :=
  let demeToColorMap := getColorsForAllDemes nodes visibility nodeColors
  let offsets : List Rat := if triplicate then [-360, 0, 360] else [0]
  offsets.foldl
    (fun st offset => demeToColorMap.foldl (setupDemeStep S geo pieChart offset) st)
    ([], [])

/-- One transmission curve. -/
structure Transmission where
  id : String
  originNode : NodeData
  destinationNode : NodeData
  bezierCurve : List Point
  bezierDates : List Rat
  originName : Option String
  destinationName : Option String
  originCoords : Point
  destinationCoords : Point
  originLatitude : Rat
  destinationLatitude : Rat
  originLongitude : Rat
  destinationLongitude : Rat
  originNumDate : Rat
  destinationNumDate : Rat
  color : String
  visible : String
  extend : Nat
deriving DecidableEq

/-- `demesMissingLatLongs.add(x)` — a JS `Set` keeps one copy of each value
in insertion order (in JS the added value can be `undefined`). -/
def setAddOpt (s : List (Option String)) (x : Option String) :
    List (Option String) :=
  if x ∈ s then s else s ++ [x]

/-- `constructBcurve(originLatLongPair, destinationLatLongPair, extend)`. -/
def constructBcurve (S : Services) (o d : Point) (extend : Nat) : List Point :=
  S.bezier o d extend

/-- d3's `interpolateNumber(a, b)` applied at `t`: `a * (1 - t) + b * t`
(exact over `Rat`; equal to `a + t * (b - a)`). -/
def interpolateNumber (a b t : Rat) : Rat := a * (1 - t) + b * t

/-- The transmission object literal built inside `maybeConstructTransmissionEvent`
once a valid lat/long pair exists; on a 1-point curve the JS date
interpolation divides by zero (`NaN`), here `Rat` division by zero gives 0 —
the curve-service contract guarantees at least 2 points. -/
def transmissionFromPair (S : Services) (node : TreeNode) (child : NodeData)
    (o d : LatLong) (offsetOrig offsetDest : Rat) (pair : Point × Point)
    (nodeColors : Nat → String) (visibility : Nat → Nat) (extend : Nat) :
    Transmission :=
  let Bcurve := constructBcurve S pair.1 pair.2 extend
  let Bdates := (List.range Bcurve.length).map (fun i : Nat =>
    interpolateNumber node.data.numDate child.numDate
      ((i : Rat) / ((Bcurve.length : Rat) - 1)))
  { id := toString node.data.arrayIdx ++ "-" ++ toString child.arrayIdx,
    originNode := node.data,
    destinationNode := child,
    bezierCurve := Bcurve,
    bezierDates := Bdates,
    originName := node.data.trait,
    destinationName := child.trait,
    originCoords := pair.1,
    destinationCoords := pair.2,
    originLatitude := o.latitude,
    destinationLatitude := d.latitude,
    originLongitude := o.longitude + offsetOrig,
    destinationLongitude := d.longitude + offsetDest,
    originNumDate := node.data.numDate,
    destinationNumDate := child.numDate,
    color := nodeColors node.data.arrayIdx,
    visible := if visibility child.arrayIdx ≠ NODE_NOT_VISIBLE
      then "visible" else "hidden",
    extend := extend }

/-- `maybeConstructTransmissionEvent(...)`.  The two `try { table[loc].latitude }
catch { demesMissingLatLongs.add(loc) }` blocks become `Option.bind` lookups
plus a `setAddOpt` on failure; when either lookup failed the JS code feeds
`NaN` longitudes into `maybeGetTransmissionPair`, whose
`Math.abs(NaN - x) < 180` test is always false, so the pair is `null` — here
that case returns `none` directly.  The state-passing pair is
(constructed transmission or `none`, updated `demesMissingLatLongs`). -/
def maybeConstructTransmissionEvent (S : Services) (node : TreeNode)
    (child : NodeData) (geo : String → Option LatLong)
    (nodeColors : Nat → String) (visibility : Nat → Nat)
    (offsetOrig offsetDest : Rat)
    (demesMissingLatLongs : List (Option String)) (extend : Nat) :
    Option Transmission × List (Option String) :=
  let origLL := node.data.trait.bind geo
  let destLL := child.trait.bind geo
  let missing1 :=
    if origLL.isSome then demesMissingLatLongs
    else setAddOpt demesMissingLatLongs node.data.trait
  let missing2 :=
    if destLL.isSome then missing1 else setAddOpt missing1 child.trait
  match origLL, destLL with
  | some o, some d =>
    match maybeGetTransmissionPair o.latitude (o.longitude + offsetOrig)
        d.latitude (d.longitude + offsetDest) S.mapProj with
    | some pair =>
      (some (transmissionFromPair S node child o d offsetOrig offsetDest pair
        nodeColors visibility extend), missing2)
    | none => (none, missing2)
  | some _, none => (none, missing2)
  | none, some _ => (none, missing2)
  | none, none => (none, missing2)

/-- lodash `_minBy`: the first element attaining the minimum of `f` (later
elements replace the current best only on a strictly smaller value). -/
def minBy {α : Type} (f : α → Rat) : List α → Option α
  | [] => none
  | x :: xs => some (xs.foldl (fun best a => if f a < f best then a else best) x)

/-- `maybeGetClosestTransmissionEvent(...)`: try all three destination
offsets, then pick the candidate minimising the absolute horizontal
screen-space distance between the projected endpoints. -/
def maybeGetClosestTransmissionEvent (S : Services) (node : TreeNode)
    (child : NodeData) (geo : String → Option LatLong)
    (nodeColors : Nat → String) (visibility : Nat → Nat) (offsetOrig : Rat)
    (missing : List (Option String)) (extend : Nat) :
    Option Transmission × List (Option String) :=
  let res := ([-360, 0, 360] : List Rat).foldl
    (fun (st : List Transmission × List (Option String)) offsetDest =>
      match maybeConstructTransmissionEvent S node child geo nodeColors
          visibility offsetOrig offsetDest st.2 extend with
      | (some t, m) => (st.1 ++ [t], m)
      | (none, m) => (st.1, m))
    ([], missing)
  (minBy (fun event => |event.destinationCoords.x - event.originCoords.x|) res.1,
   res.2)

/-- The traversal state of `setupTransmissionData`. -/
structure TransState where
  demeToDemeCounts : List (String × Nat)
  transmissionData : List Transmission
  missing : List (Option String)
deriving DecidableEq

/-- The body of the `n.children.forEach((child) => ...)` loop of
`setupTransmissionData`: for an edge with truthy, distinct locations, bump the
`demeToDemeCounts` occurrence counter (the JS key is the array-to-string of
`[nodeDeme, childDeme]`, i.e. the two names joined by a comma), use the new
count as `extend`, and push the closest event of every origin offset. -/
def transmissionEdgeStep (S : Services) (geo : String → Option LatLong)
    (nodeColors : Nat → String) (visibility : Nat → Nat) (triplicate : Bool)
    (node : TreeNode) (st : TransState) (child : NodeData) : TransState :=
  let nodeDeme := node.data.trait
  let childDeme := child.trait
  if locTruthy nodeDeme ∧ locTruthy childDeme ∧ nodeDeme ≠ childDeme then
    let key := nodeDeme.getD "" ++ "," ++ childDeme.getD ""
    let newCount := (alistGet st.demeToDemeCounts key).getD 0 + 1
    let counts' := alistSet st.demeToDemeCounts key newCount
    let extend := newCount
    let offsets : List Rat := if triplicate then [-360, 0, 360] else [0]
    let res := offsets.foldl
      (fun (acc : List Transmission × List (Option String)) offsetOrig =>
        match maybeGetClosestTransmissionEvent S node child geo nodeColors
            visibility offsetOrig acc.2 extend with
        | (some t, m) => (acc.1 ++ [t], m)
        | (none, m) => (acc.1, m))
      (st.transmissionData, st.missing)
    ⟨counts', res.1, res.2⟩
  else st

/-- The result record of `setupTransmissionData`. -/
structure TransmissionBuild where
  transmissionData : List Transmission
  transmissionIndices : List (String × List Nat)
  demesMissingLatLongs : List (Option String)
deriving DecidableEq

/-- `setupTransmissionData(nodes, visibility, geoResolution, nodeColors,
triplicate, metadata, map)`. -/
def setupTransmissionData (S : Services) (nodes : List TreeNode)
    (visibility : Nat → Nat) (nodeColors : Nat → String) (triplicate : Bool)
    (geo : String → Option LatLong) : TransmissionBuild :=
  let st := nodes.foldl
    (fun st n =>
      match n.children with
      | some cs =>
        cs.foldl (transmissionEdgeStep S geo nodeColors visibility triplicate n) st
      | none => st)
    ⟨[], [], []⟩
  let indices := st.transmissionData.enum.foldl
    (fun acc p =>
      match alistGet acc p.2.id with
      | some l => alistSet acc p.2.id (l ++ [p.1])
      | none => alistSet acc p.2.id [p.1])
    []
  ⟨st.transmissionData, indices, st.missing⟩

/-- The result record of `createDemeAndTransmissionData`. -/
structure BuildResult where
  demeData : List Deme
  demeIndices : List (String × List Nat)
  transmissionData : List Transmission
  transmissionIndices : List (String × List Nat)
  demesMissingLatLongs : List (Option String)
deriving DecidableEq

/-- `createDemeAndTransmissionData(...)`: the two builds run sequentially and
their results are combined; the returned `demesMissingLatLongs` is the one of
the transmission build. -/
def createDemeAndTransmissionData (S : Services) (nodes : List TreeNode)
    (visibility : Nat → Nat) (nodeColors : Nat → String) (triplicate : Bool)
    (geo : String → Option LatLong) (pieChart : Bool) : BuildResult :=
  let demes := setupDemeData S nodes visibility nodeColors triplicate geo pieChart
  let trans := setupTransmissionData S nodes visibility nodeColors triplicate geo
  ⟨demes.1, demes.2, trans.transmissionData, trans.transmissionIndices,
   trans.demesMissingLatLongs⟩

/-- `Except.isOk`-style test used by the theorems below. -/
def exOk {α : Type} : Except String α → Bool
  | Except.ok _ => true
  | Except.error _ => false

/-- The `demeDataCopy[index].arcs.forEach((a, i) => ...)` loop of
`updateDemeDataColAndVis`: recompute each arc's angles from the fresh counts,
accumulating `startAngle`.  `colors[i]` with `i` beyond the color list, like
any JS read of a property of `undefined`, throws (`Except.error`); the
`a.color !== colors[i]` check only logs `COLOR MISMATCH FATAL` and is a
value-level no-op.  When `totalNumVisible` is 0 the JS division yields `NaN`
where `Rat` division yields 0; no claim depends on that corner. -/
def updateArcsAngles (twoPi : Rat) (colorCounts : List (String × ColorCount))
    (arcs : List Arc) : Except String (List Arc) :=
  let totalNumVisible : Rat := (colorCounts.map (fun c => (c.2.nVisible : Rat))).sum
  let colors := colorCounts.map (fun c => c.1)
  (arcs.enum.foldlM
    (fun (st : List Arc × Rat) (p : Nat × Arc) =>
      match colors.get? p.1 with
      | none => Except.error "TypeError: colors[i] is undefined"
      | some c =>
        match alistGet colorCounts c with
        | none => Except.error "TypeError: colorCounts[colors[i]] is undefined"
        | some cc =>
          let startAngle := st.2
          let endAngle := startAngle + twoPi * (cc.nVisible : Rat) / totalNumVisible
          Except.ok
            (st.1 ++ [{ p.2 with startAngle := startAngle, endAngle := endAngle }],
             endAngle))
    (([] : List Arc), (0 : Rat))).map (fun (st : List Arc × Rat) => st.1)

/-- The body of the `demeIndices[location].forEach((index) => ...)` loop of
`updateDemeDataColAndVis`: patch `count`, then either recompute the arcs (pie
mode) or the blended `color`.  `demeDataCopy[index]` out of range and `.arcs`
on a blended deme are JS `TypeError`s. -/
def updateDemeAtIndex (S : Services) (pieChart : Bool)
    (nVisibleTipsInDeme : Nat) (colorCounts : List (String × ColorCount))
    (dd : List Deme) (index : Nat) : Except String (List Deme) :=
  match dd.get? index with
  | none => Except.error "TypeError: demeDataCopy[index] is undefined"
  | some deme =>
    let deme := { deme with count := nVisibleTipsInDeme }
    if pieChart then
      match deme.arcs with
      | none => Except.error "TypeError: arcs is undefined"
      | some arcs =>
        (updateArcsAngles S.twoPi colorCounts arcs).map
          (fun arcs2 => dd.set index { deme with arcs := some arcs2 })
    else
      Except.ok (dd.set index
        { deme with color := some (S.averageColorsDict colorCounts) })

/-- The body of the `for (const [location, colorCounts] of ...)` loop of
`updateDemeDataColAndVis`.  The unguarded `demeIndices[location].forEach`
throws when the location is absent from the index map. -/
def updateDemeEntry (S : Services) (demeIndices : List (String × List Nat))
    (pieChart : Bool) (dd : List Deme)
    (entry : String × List (String × ColorCount)) : Except String (List Deme) :=
  let colorCounts := entry.2
  let nVisibleTipsInDeme := (colorCounts.map (fun c => c.2.nVisible)).sum
  match alistGet demeIndices entry.1 with
  | none => Except.error "TypeError: demeIndices[location] is undefined"
  | some idxs =>
    idxs.foldlM (updateDemeAtIndex S pieChart nVisibleTipsInDeme colorCounts) dd

/-- `updateDemeDataColAndVis(demeData, demeIndices, nodes, visibility,
geoResolution, nodeColors, pieChart)`.  The function has no `try`/`catch`,
so any `TypeError` raised inside escapes to the caller (`Except.error`). -/
def updateDemeDataColAndVis (S : Services) (demeData : List Deme)
    (demeIndices : List (String × List Nat)) (nodes : List TreeNode)
    (visibility : Nat → Nat) (nodeColors : Nat → String) (pieChart : Bool) :
    Except String (List Deme) :=
  (getColorsForAllDemes nodes visibility nodeColors).foldlM
    (updateDemeEntry S demeIndices pieChart) demeData

/-- The `transmissionIndices[id].forEach((index) => ...)` body inside the
`try` of `updateTransmissionDataColAndVis`, with its `catch`: indices are
patched left to right; an out-of-range index throws, the `catch` logs a
warning *after* the earlier in-place patches already happened, so the partial
mutation persists. -/
def patchTransmissions (data : List Transmission) (idxs : List Nat)
    (col vis : String) (warns : List String) :
    List Transmission × List String :=
  match idxs with
  | [] => (data, warns)
  | i :: rest =>
    match data.get? i with
    | none =>
      (data, warns ++ ["Error trying to access id in transmissionIndices."])
    | some t =>
      patchTransmissions (data.set i { t with color := col, visible := vis })
        rest col vis warns

/-- The `node.children.forEach((child) => ...)` body of
`updateTransmissionDataColAndVis`.  NOTE: the source computes *both*
`nodeLocation` and `childLocation` with `getTraitFromNode(node, ...)` (line
451 reads `node`, not `child`), which this embedding reproduces verbatim. -/
def updateTransmissionStep (transmissionIndices : List (String × List Nat))
    (visibility : Nat → Nat) (nodeColors : Nat → String) (node : TreeNode)
    (st : List Transmission × List String) (child : NodeData) :
    List Transmission × List String :=
  let nodeLocation := node.data.trait
  let childLocation := node.data.trait
  if locTruthy nodeLocation ∧ locTruthy childLocation
      ∧ nodeLocation ≠ childLocation then
    let id := toString node.data.arrayIdx ++ "-" ++ toString child.arrayIdx
    let col := nodeColors node.data.arrayIdx
    let vis := if visibility child.arrayIdx ≠ NODE_NOT_VISIBLE
      then "visible" else "hidden"
    match alistGet transmissionIndices id with
    | none =>
      (st.1, st.2 ++ ["Error trying to access id in transmissionIndices."])
    | some idxs => patchTransmissions st.1 idxs col vis st.2
  else st

/-- `updateTransmissionDataColAndVis(transmissionData, transmissionIndices,
nodes, visibility, geoResolution, nodeColors)`; the second component collects
the `console.warn` diagnostics emitted by the `catch` blocks. -/
def updateTransmissionDataColAndVis (transmissionData : List Transmission)
    (transmissionIndices : List (String × List Nat)) (nodes : List TreeNode)
    (visibility : Nat → Nat) (nodeColors : Nat → String) :
    List Transmission × List String :=
  nodes.foldl
    (fun st node =>
      match node.children with
      | some cs =>
        cs.foldl
          (updateTransmissionStep transmissionIndices visibility nodeColors node)
          st
      | none => st)
    (transmissionData, [])

/-- `updateDemeAndTransmissionDataColAndVis(...)`: when either collection is
absent (JS `undefined`; a present-but-empty array is truthy) both results are
`undefined`; otherwise the deme update runs first and any exception it throws
propagates to the caller. -/
def updateDemeAndTransmissionDataColAndVis (S : Services)
    (demeData : Option (List Deme)) (transmissionData : Option (List Transmission))
    (demeIndices : List (String × List Nat))
    (transmissionIndices : List (String × List Nat)) (nodes : List TreeNode)
    (visibility : Nat → Nat) (nodeColors : Nat → String) (pieChart : Bool) :
    Except String (Option (List Deme) × Option (List Transmission × List String)) :=
  match demeData, transmissionData with
  | some dd, some td =>
    (updateDemeDataColAndVis S dd demeIndices nodes visibility nodeColors
        pieChart).map
      (fun newDemes =>
        (some newDemes,
         some (updateTransmissionDataColAndVis td transmissionIndices nodes
           visibility nodeColors)))
  | some _, none => Except.ok (none, none)
  | none, some _ => Except.ok (none, none)
  | none, none => Except.ok (none, none)

/-- `updateDemeDataLatLong(demeData, map)`: re-project every deme's `coords`
from its stored raw `latitude`/`longitude`. -/
def updateDemeDataLatLong (S : Services) (demeData : List Deme) : List Deme :=
  demeData.map (fun d =>
    { d with coords := leafletLatLongToLayerPoint d.latitude d.longitude S.mapProj })

/-- `updateTransmissionDataLatLong(transmissionData, map)`: re-project both
endpoints from the stored raw values and rebuild the curve with the stored
`extend`. -/
def updateTransmissionDataLatLong (S : Services)
    (transmissionData : List Transmission) : List Transmission :=
  transmissionData.map (fun t =>
    let originCoords :=
      leafletLatLongToLayerPoint t.originLatitude t.originLongitude S.mapProj
    let destinationCoords :=
      leafletLatLongToLayerPoint t.destinationLatitude t.destinationLongitude
        S.mapProj
    { t with
      originCoords := originCoords,
      destinationCoords := destinationCoords,
      bezierCurve := constructBcurve S originCoords destinationCoords t.extend })

/-- `updateDemeAndTransmissionDataLatLong(demeData, transmissionData, map)`. -/
def updateDemeAndTransmissionDataLatLong (S : Services)
    (demeData : Option (List Deme))
    (transmissionData : Option (List Transmission)) :
    Option (List Deme) × Option (List Transmission) :=
  match demeData, transmissionData with
  | some dd, some td =>
    (some (updateDemeDataLatLong S dd), some (updateTransmissionDataLatLong S td))
  | some _, none => (none, none)
  | none, some _ => (none, none)
  | none, none => (none, none)

/-- The spec's wording of the candidate-validity policy, to be compared with
the source's `maybeGetTransmissionPair`: "(origin longitude is within
(-360,360) OR destination longitude is within (-360,360)) AND (origin
longitude < 360 OR destination longitude < 360) AND the absolute longitude
difference between origin and destination is < 180". -/
def specTransmissionValid (longOrig longDest : Rat) : Prop :=
  ((-360 < longOrig ∧ longOrig < 360) ∨ (-360 < longDest ∧ longDest < 360))
    ∧ (longOrig < 360 ∨ longDest < 360)
    ∧ |longOrig - longDest| < 180

instance (longOrig longDest : Rat) :
    Decidable (specTransmissionValid longOrig longDest) := by
  unfold specTransmissionValid
  infer_instance

/-! Concrete fixtures used by the witness and counterexample theorems. -/

/-- Concrete services: the projection sends (lat, long) to the point
(x = long, y = lat); the curve service returns endpoints plus midpoint; the
pie layout gives each value the slice (0, value). -/
def wS : Services :=
  { mapProj := fun lat long => ⟨long, lat⟩,
    bezier := fun p q _ => [p, ⟨(p.x + q.x) / 2, (p.y + q.y) / 2⟩, q],
    pieLayout := fun vs => vs.map (fun v => (0, v)),
    averageColorsDict := fun l => match l with | [] => "none" | (c, _) :: _ => c,
    twoPi := 6 }

/-- A child node at location "B". -/
def wChildB : NodeData := ⟨some "B", 1, 2002⟩

/-- A root node at location "A" whose only child is `wChildB`. -/
def wNodeA : TreeNode := ⟨⟨some "A", 0, 2000⟩, some [wChildB]⟩

/-- The tip node corresponding to `wChildB` in the flat node array. -/
def wTipB : TreeNode := ⟨wChildB, none⟩

/-- A two-node tree: root at "A", tip child at "B". -/
def wNodes : List TreeNode := [wNodeA, wTipB]

/-- A lone tip at location "A". -/
def wTipA : TreeNode := ⟨⟨some "A", 0, 2000⟩, none⟩

/-- Geography for "A" and "B", 20 degrees of longitude apart. -/
def wGeo : String → Option LatLong := fun s =>
  if s = "A" then some ⟨1, 10⟩ else if s = "B" then some ⟨2, 30⟩ else none

/-- Geography placing "A" and "B" 200 degrees of longitude apart. -/
def wGeo200 : String → Option LatLong := fun s =>
  if s = "A" then some ⟨0, -150⟩ else if s = "B" then some ⟨0, 50⟩ else none

/-- Geography placing "A" and "B" exactly 180 degrees of longitude apart. -/
def wGeo180 : String → Option LatLong := fun s =>
  if s = "A" then some ⟨0, -90⟩ else if s = "B" then some ⟨0, 90⟩ else none

/-- An empty geographic lookup table. -/
def wGeoNone : String → Option LatLong := fun _ => none

/-- Everything visible. -/
def wVisOld : Nat → Nat := fun _ => 2

/-- Everything hidden. -/
def wVisNew : Nat → Nat := fun _ => 0

/-- Node 0 is "red", all others "blue". -/
def wCols : Nat → String := fun i => if i = 0 then "red" else "blue"

/-- The transmission build of the two-node tree with everything visible. -/
def wBuild : TransmissionBuild :=
  setupTransmissionData wS wNodes wVisOld wCols false wGeo

/-- Fallback `Deme` used by `List.getD` in positional statements. -/
def dummyDeme : Deme := ⟨"", 0, 0, 0, ⟨0, 0⟩, none, none⟩

/-- Fallback `Transmission` used by `List.getD` in positional statements. -/
def dummyTrans : Transmission :=
  ⟨"", ⟨none, 0, 0⟩, ⟨none, 0, 0⟩, [], [], none, none, ⟨0, 0⟩, ⟨0, 0⟩,
   0, 0, 0, 0, 0, 0, "", "", 0⟩

/-- The deme build of the lone tip "A" (blended mode). -/
def wDemeBuild : List Deme × List (String × List Nat) :=
  setupDemeData wS [wTipA] wVisOld wCols false wGeo false

/-- The single deme emitted by `wDemeBuild`. -/
def wDeme0 : Deme := wDemeBuild.1.headD dummyDeme

/-- The single transmission emitted by `wBuild`. -/
def wT0 : Transmission := wBuild.transmissionData.headD dummyTrans

/-- The transmission candidate of the edge "A" → "B" at offsets (0, 0). -/
def wT8 : Transmission :=
  (maybeConstructTransmissionEvent wS wNodeA wChildB wGeo wCols wVisOld 0 0
    [] 1).1.getD dummyTrans

/-- A tip whose trait is the empty string (falsy but not `undefined`). -/
def wTipEmpty : TreeNode := ⟨⟨some "", 2, 0⟩, none⟩

/-! ### Helper lemmas -/

theorem foldl_congr_id {α β : Type} (f : α → β → α) (l : List β)
    (h : ∀ a b, f a b = a) : ∀ a, l.foldl f a = a := by
  induction l with
  | nil => intro a; rfl
  | cons b l ih => intro a; rw [List.foldl_cons, h, ih]

theorem alistGet_set_self {α : Type} (m : List (String × α)) (k : String)
    (v : α) : alistGet (alistSet m k v) k = some v := by
  induction m with
  | nil => simp [alistGet, alistSet]
  | cons p rest ih =>
    obtain ⟨a, b⟩ := p
    by_cases h : a = k
    · subst h; simp [alistSet, alistGet]
    · simp [alistSet, alistGet, h, ih]

theorem alistGet_set_other {α : Type} (m : List (String × α)) (k k' : String)
    (v : α) (h : k' ≠ k) : alistGet (alistSet m k v) k' = alistGet m k' := by
  induction m with
  | nil =>
    have h2 : ¬ (k = k') := fun hh => h hh.symm
    simp [alistGet, alistSet, h2]
  | cons p rest ih =>
    obtain ⟨a, b⟩ := p
    by_cases ha : a = k
    · subst ha
      have h2 : ¬ (a = k') := fun hh => h hh.symm
      simp [alistSet, alistGet, h2]
    · by_cases ha' : a = k'
      · simp [alistSet, alistGet, ha, ha', h]
      · simp [alistSet, alistGet, ha, ha', ih]

theorem demeColorStep_internal (visibility : Nat → Nat)
    (nodeColors : Nat → String) (acc : ColorMap) (i : Nat) (n : TreeNode)
    (h : n.children.isSome) :
    demeColorStep visibility nodeColors acc (i, n) = acc := by
  unfold demeColorStep
  dsimp only
  simp [h]

theorem demeColorStep_falsy (visibility : Nat → Nat)
    (nodeColors : Nat → String) (acc : ColorMap) (i : Nat) (n : TreeNode)
    (h : locTruthy n.data.trait = false) :
    demeColorStep visibility nodeColors acc (i, n) = acc := by
  unfold demeColorStep
  dsimp only
  split
  · rfl
  · simp [h]

theorem demeColorStep_contributing (visibility : Nat → Nat)
    (nodeColors : Nat → String) (acc : ColorMap) (i : Nat) (n : TreeNode)
    (loc : String) (hc : n.children = none) (ht : n.data.trait = some loc)
    (hne : loc ≠ "") :
    lookupColorCount (demeColorStep visibility nodeColors acc (i, n)) loc
        (nodeColors i)
      = ⟨(lookupColorCount acc loc (nodeColors i)).nVisible
           + (if visibility i ≠ NODE_NOT_VISIBLE then 1 else 0),
         (lookupColorCount acc loc (nodeColors i)).nTotal + 1⟩ := by
  unfold demeColorStep
  dsimp only
  rw [hc, ht]
  simp only [Option.isSome_none, Bool.false_eq_true, if_false, locTruthy,
    Option.getD_some]
  rw [if_pos (by simp [hne])]
  unfold lookupColorCount
  rw [alistGet_set_self, Option.getD_some, alistGet_set_self, Option.getD_some]

theorem demeColorStep_invariant (visibility : Nat → Nat)
    (nodeColors : Nat → String) (acc : ColorMap) (p : Nat × TreeNode)
    (h : ∀ loc col, (lookupColorCount acc loc col).nVisible
      ≤ (lookupColorCount acc loc col).nTotal) :
    ∀ loc col,
      (lookupColorCount (demeColorStep visibility nodeColors acc p) loc
        col).nVisible
      ≤ (lookupColorCount (demeColorStep visibility nodeColors acc p) loc
        col).nTotal := by
  intro loc col
  obtain ⟨i, n⟩ := p
  unfold demeColorStep
  dsimp only
  split
  · exact h loc col
  split
  case isFalse => exact h loc col
  case isTrue =>
    unfold lookupColorCount
    by_cases hL : n.data.trait.getD "" = loc
    · rw [hL, alistGet_set_self, Option.getD_some]
      by_cases hC : nodeColors i = col
      · rw [hC, alistGet_set_self, Option.getD_some]
        have hbase := h loc col
        unfold lookupColorCount at hbase
        rw [hL] at *
        rw [hC] at *
        have hb : (if visibility i ≠ NODE_NOT_VISIBLE then 1 else 0) ≤ 1 := by
          split <;> omega
        dsimp only
        omega
      · rw [alistGet_set_other _ _ _ _ (fun hh => hC hh.symm)]
        exact h loc col
    · rw [alistGet_set_other _ _ _ _ (fun hh => hL hh.symm)]
      exact h loc col

theorem getColors_fold_invariant (visibility : Nat → Nat)
    (nodeColors : Nat → String) :
    ∀ (l : List (Nat × TreeNode)) (acc : ColorMap),
      (∀ loc col, (lookupColorCount acc loc col).nVisible
        ≤ (lookupColorCount acc loc col).nTotal) →
      ∀ loc col,
        (lookupColorCount (l.foldl (demeColorStep visibility nodeColors) acc)
          loc col).nVisible
        ≤ (lookupColorCount (l.foldl (demeColorStep visibility nodeColors) acc)
          loc col).nTotal
  | [], _, h => h
  | p :: l, acc, h =>
    getColors_fold_invariant visibility nodeColors l
      (demeColorStep visibility nodeColors acc p)
      (demeColorStep_invariant visibility nodeColors acc p h)

/-- The `node`/`child` slip of line 451 makes the per-child update step the
identity: its guard compares `node`'s trait with itself. -/
theorem colvis_update_transmissions_noop
    (td : List Transmission) (ti : List (String × List Nat))
    (nodes : List TreeNode) (visibility : Nat → Nat)
    (nodeColors : Nat → String) :
    updateTransmissionDataColAndVis td ti nodes visibility nodeColors
      = (td, []) := by
  unfold updateTransmissionDataColAndVis
  apply foldl_congr_id
  intro st node
  cases hc : node.children with
  | none => rfl
  | some cs =>
    apply foldl_congr_id
    intro st2 child
    unfold updateTransmissionStep
    simp

/-! ### Claim theorems -/

/-- C1 (code_bug): the source computes `childLocation` from `node` instead of
`child` (line 451), so `nodeLocation !== childLocation` never holds and the
color/visibility transmission update patches nothing: it is the identity on
the transmission collection (and emits no warnings), for every input —
contradicting the claim that each edge with distinct defined traits gets its
color and visible flag patched via `transmissionIndices`. -/
theorem C1_transmission_colvis_update_is_noop
    (td : List Transmission) (ti : List (String × List Nat))
    (nodes : List TreeNode) (visibility : Nat → Nat)
    (nodeColors : Nat → String) :
    updateTransmissionDataColAndVis td ti nodes visibility nodeColors
      = (td, []) :=
  colvis_update_transmissions_noop td ti nodes visibility nodeColors

/-- C2 (code_bug): on the two-node tree `wNodes` (edge "A" → "B") built with
everything visible, re-running the build with the new all-hidden visibility
yields a transmission with `visible = "hidden"`, but applying the
color/visibility update with the same new visibility to the built collections
leaves the transmission at `visible = "visible"` — the update does not refine
the rebuild (consequence of the `node`/`child` slip of line 451). -/
theorem C2_colvis_update_diverges_from_rebuild :
    ((updateTransmissionDataColAndVis wBuild.transmissionData
        wBuild.transmissionIndices wNodes wVisNew wCols).1.map
      (fun t => t.visible)) = ["visible"]
    ∧ ((setupTransmissionData wS wNodes wVisNew wCols false
        wGeo).transmissionData.map (fun t => t.visible)) = ["hidden"] := by
  constructor
  · rw [colvis_update_transmissions_noop]
    norm_num +decide [wBuild, setupTransmissionData, transmissionEdgeStep,
      maybeGetClosestTransmissionEvent, maybeConstructTransmissionEvent,
      transmissionFromPair, constructBcurve, maybeGetTransmissionPair,
      leafletLatLongToLayerPoint, wS, wNodes, wNodeA, wChildB, wTipB, wGeo,
      wVisOld, wCols, alistGet, alistSet, setAddOpt, minBy, locTruthy,
      interpolateNumber, NODE_NOT_VISIBLE, westBound, eastBound]
  · norm_num +decide [setupTransmissionData, transmissionEdgeStep,
      maybeGetClosestTransmissionEvent, maybeConstructTransmissionEvent,
      transmissionFromPair, constructBcurve, maybeGetTransmissionPair,
      leafletLatLongToLayerPoint, wS, wNodes, wNodeA, wChildB, wTipB, wGeo,
      wVisNew, wCols, alistGet, alistSet, setAddOpt, minBy, locTruthy,
      interpolateNumber, NODE_NOT_VISIBLE, westBound, eastBound]

/-- C6 (confirmed): a candidate produces a point pair iff the spec's validity
formula holds of the two offset longitudes. -/
theorem C6_candidate_validity_iff_spec (latOrig longOrig latDest longDest : Rat)
    (m : LeafletMap) :
    (maybeGetTransmissionPair latOrig longOrig latDest longDest m).isSome
      ↔ specTransmissionValid longOrig longDest := by
  unfold maybeGetTransmissionPair specTransmissionValid westBound eastBound
  split
  case isTrue h =>
    obtain ⟨h1, h2, h3⟩ := h
    have habs := abs_lt.mp h3
    simp only [Option.isSome_some, true_iff]
    refine ⟨?_, h2, h3⟩
    rcases h1 with hO | hD
    · rcases h2 with hO2 | hD2
      · exact Or.inl ⟨hO, hO2⟩
      · by_cases hx : longOrig < 360
        · exact Or.inl ⟨hO, hx⟩
        · push_neg at hx
          exact Or.inr ⟨by linarith [habs.2], hD2⟩
    · rcases h2 with hO2 | hD2
      · by_cases hy : -360 < longOrig
        · exact Or.inl ⟨hy, hO2⟩
        · push_neg at hy
          exact Or.inr ⟨hD, by linarith [habs.1]⟩
      · exact Or.inr ⟨hD, hD2⟩
  case isFalse h =>
    simp only [Option.isSome_none, Bool.false_eq_true, false_iff]
    rintro ⟨s1, s2, s3⟩
    refine h ⟨?_, s2, s3⟩
    rcases s1 with ⟨a, _⟩ | ⟨a, _⟩
    · exact Or.inl a
    · exact Or.inr a

/-- C3 counterexample: for raw longitudes -150 and 50 (a 200-degree
difference), the offset combination (origin-offset 0, destination-offset
-360) gives a longitude difference of 160 < 180, the candidate passes the
validity check, and the triplicated build emits two transmissions for the
edge — not zero. -/
theorem C3_counterexample :
    |(-150 : Rat) - 50| = 200
    ∧ |((-150 : Rat) + 0) - (50 + -360)| < 180
    ∧ (maybeGetTransmissionPair 0 ((-150 : Rat) + 0) 0 (50 + -360)
        wS.mapProj).isSome = true
    ∧ (setupTransmissionData wS wNodes wVisOld wCols true
        wGeo200).transmissionData.length = 2 := by
  refine ⟨by norm_num, by norm_num, ?_, ?_⟩
  · norm_num [maybeGetTransmissionPair, leafletLatLongToLayerPoint, wS,
      westBound, eastBound]
  · norm_num +decide [setupTransmissionData, transmissionEdgeStep,
      maybeGetClosestTransmissionEvent, maybeConstructTransmissionEvent,
      transmissionFromPair, constructBcurve, maybeGetTransmissionPair,
      leafletLatLongToLayerPoint, wS, wNodes, wNodeA, wChildB, wTipB, wGeo200,
      wVisOld, wCols, alistGet, alistSet, setAddOpt, minBy, locTruthy,
      interpolateNumber, NODE_NOT_VISIBLE, westBound, eastBound]

/-- When both geographic lookups succeed but the offset longitudes are at
least 180 apart, `maybeConstructTransmissionEvent` emits no candidate and
leaves the missing set untouched. -/
theorem construct_none_of_far (S : Services) (node : TreeNode)
    (child : NodeData) (geo : String → Option LatLong)
    (nodeColors : Nat → String) (visibility : Nat → Nat) (oO oD : Rat)
    (missing : List (Option String)) (extend : Nat) (lo ld : LatLong)
    (hA : node.data.trait.bind geo = some lo)
    (hB : child.trait.bind geo = some ld)
    (h : ¬ |(lo.longitude + oO) - (ld.longitude + oD)| < 180) :
    maybeConstructTransmissionEvent S node child geo nodeColors visibility
      oO oD missing extend = (none, missing) := by
  have hno : maybeGetTransmissionPair lo.latitude (lo.longitude + oO)
      ld.latitude (ld.longitude + oD) S.mapProj = none := by
    unfold maybeGetTransmissionPair
    rw [if_neg]
    rintro ⟨-, -, h3⟩
    exact h h3
  simp only [maybeConstructTransmissionEvent, hA, hB, Option.isSome_some,
    if_true, hno]

/-- C3 (corrected): an edge whose raw longitudes differ by exactly 180
degrees (the value forced by the counterexample in place of the claimed 200)
is rejected by every (origin-offset, destination-offset) combination drawn
from {-360, 0, +360}: for each origin offset the closest-event selection
returns nothing, so the build emits zero transmissions for the edge. -/
theorem C3_amended_edge_180_rejected (S : Services) (node : TreeNode)
    (child : NodeData) (geo : String → Option LatLong)
    (nodeColors : Nat → String) (visibility : Nat → Nat)
    (missing : List (Option String)) (extend : Nat) (lo ld : LatLong)
    (hA : node.data.trait.bind geo = some lo)
    (hB : child.trait.bind geo = some ld)
    (hdiff : |lo.longitude - ld.longitude| = 180)
    (offsetOrig : Rat)
    (hoo : offsetOrig = -360 ∨ offsetOrig = 0 ∨ offsetOrig = 360) :
    (maybeGetClosestTransmissionEvent S node child geo nodeColors visibility
      offsetOrig missing extend).1 = none := by
  have key : ∀ oD : Rat, oD = -360 ∨ oD = 0 ∨ oD = 360 →
      maybeConstructTransmissionEvent S node child geo nodeColors visibility
        offsetOrig oD missing extend = (none, missing) := by
    intro oD hod
    apply construct_none_of_far S node child geo nodeColors visibility
      offsetOrig oD missing extend lo ld hA hB
    intro hlt
    rw [abs_lt] at hlt
    obtain ⟨hl, hr⟩ := hlt
    rcases (abs_eq (by norm_num : (0 : Rat) ≤ 180)).mp hdiff with hd | hd <;>
      rcases hoo with h1 | h1 | h1 <;> rcases hod with h2 | h2 | h2 <;>
      subst h1 <;> subst h2 <;> linarith
  simp only [maybeGetClosestTransmissionEvent, List.foldl_cons,
    List.foldl_nil, key (-360) (Or.inl rfl), key 0 (Or.inr (Or.inl rfl)),
    key 360 (Or.inr (Or.inr rfl)), minBy]

/-- Witness for C3's amended theorem: locations 180 degrees apart, origin
offset 0. -/
theorem C3_amended_witness :
    (maybeGetClosestTransmissionEvent wS wNodeA wChildB wGeo180 wCols wVisOld
      0 [] 1).1 = none :=
  C3_amended_edge_180_rejected wS wNodeA wChildB wGeo180 wCols wVisOld [] 1
    ⟨0, -90⟩ ⟨0, 90⟩ rfl rfl (by norm_num) 0 (Or.inr (Or.inl rfl))

/-- C7 (confirmed): the color aggregation (a pure function of its four
inputs) satisfies, for every (location, color) pair, `nVisible ≤ nTotal`
(with 0 ≤ both as `Nat`s); its per-node step ignores internal nodes and
falsy-trait nodes, and for a contributing tip increments `nTotal` by one and
`nVisible` by one exactly when the node's visibility state is not
`NODE_NOT_VISIBLE`. -/
theorem C7_color_aggregation (nodes : List TreeNode) (visibility : Nat → Nat)
    (nodeColors : Nat → String) :
    (∀ loc col,
      (lookupColorCount (getColorsForAllDemes nodes visibility nodeColors)
        loc col).nVisible
      ≤ (lookupColorCount (getColorsForAllDemes nodes visibility nodeColors)
        loc col).nTotal)
    ∧ (∀ (acc : ColorMap) (i : Nat) (n : TreeNode), n.children.isSome →
        demeColorStep visibility nodeColors acc (i, n) = acc)
    ∧ (∀ (acc : ColorMap) (i : Nat) (n : TreeNode),
        locTruthy n.data.trait = false →
        demeColorStep visibility nodeColors acc (i, n) = acc)
    ∧ (∀ (acc : ColorMap) (i : Nat) (n : TreeNode) (loc : String),
        n.children = none → n.data.trait = some loc → loc ≠ "" →
        lookupColorCount (demeColorStep visibility nodeColors acc (i, n)) loc
            (nodeColors i)
          = ⟨(lookupColorCount acc loc (nodeColors i)).nVisible
               + (if visibility i ≠ NODE_NOT_VISIBLE then 1 else 0),
             (lookupColorCount acc loc (nodeColors i)).nTotal + 1⟩) := by
  refine ⟨?_, ?_, ?_, ?_⟩
  · exact getColors_fold_invariant visibility nodeColors nodes.enum []
      (fun loc col => by simp [lookupColorCount, alistGet])
  · intro acc i n hn
    exact demeColorStep_internal visibility nodeColors acc i n hn
  · intro acc i n hn
    exact demeColorStep_falsy visibility nodeColors acc i n hn
  · intro acc i n loc hc ht hne
    exact demeColorStep_contributing visibility nodeColors acc i n loc hc ht hne

/-- Witness for C7: the two-node fixture, plus the step at the internal node
`wNodeA`. -/
theorem C7_witness :
    ((lookupColorCount (getColorsForAllDemes wNodes wVisOld wCols) "B"
        "blue").nVisible
      ≤ (lookupColorCount (getColorsForAllDemes wNodes wVisOld wCols) "B"
        "blue").nTotal)
    ∧ demeColorStep wVisOld wCols [] (0, wNodeA) = [] :=
  ⟨(C7_color_aggregation wNodes wVisOld wCols).1 "B" "blue",
   (C7_color_aggregation wNodes wVisOld wCols).2.1 [] 0 wNodeA (by decide)⟩

theorem getD_range_map (f : Nat → Rat) (n i : Nat) (h : i < n) :
    ((List.range n).map f).getD i 0 = f i := by
  rw [List.getD_eq_getElem?_getD, List.getElem?_map, List.getElem?_range h]
  rfl

theorem interp_dates_spec (a b : Rat) (n : Nat) (hn : 2 ≤ n) :
    (((List.range n).map (fun i : Nat => interpolateNumber a b
        ((i : Rat) / ((n : Rat) - 1)))).getD 0 0 = a)
    ∧ (((List.range n).map (fun i : Nat => interpolateNumber a b
        ((i : Rat) / ((n : Rat) - 1)))).getD (n - 1) 0 = b)
    ∧ ∀ i, i < n →
        ((List.range n).map (fun i : Nat => interpolateNumber a b
          ((i : Rat) / ((n : Rat) - 1)))).getD i 0
          = a + ((i : Rat) / ((n : Rat) - 1)) * (b - a) := by
  have hne : ((n : Rat) - 1) ≠ 0 := by
    have h2 : (2 : Rat) ≤ (n : Rat) := by exact_mod_cast hn
    intro hz
    rw [sub_eq_zero] at hz
    rw [hz] at h2
    norm_num at h2
  refine ⟨?_, ?_, ?_⟩
  · rw [getD_range_map _ _ _ (by omega)]
    simp [interpolateNumber]
  · rw [getD_range_map _ _ _ (by omega)]
    have hcast : (((n - 1 : Nat)) : Rat) = (n : Rat) - 1 := by
      have h1 : 1 ≤ n := by omega
      rw [Nat.cast_sub h1]
      norm_num
    rw [hcast]
    rw [div_self hne]
    simp [interpolateNumber]
  · intro i hi
    rw [getD_range_map _ _ _ hi]
    unfold interpolateNumber
    ring

/-- C8 (confirmed): whenever `maybeConstructTransmissionEvent` emits a
transmission whose curve has at least 2 sample points, the dates array has
exactly one entry per curve point, entry 0 is the parent's numeric date, the
last entry is the child's, and entry `i` is the linear interpolation of the
two dates at parameter `i / (n - 1)`. -/
theorem C8_dates_linear_interpolation (S : Services) (node : TreeNode)
    (child : NodeData) (geo : String → Option LatLong)
    (nodeColors : Nat → String) (visibility : Nat → Nat) (oO oD : Rat)
    (missing : List (Option String)) (extend : Nat) (t : Transmission)
    (m2 : List (Option String))
    (h : maybeConstructTransmissionEvent S node child geo nodeColors
      visibility oO oD missing extend = (some t, m2)) :
    t.bezierDates.length = t.bezierCurve.length
    ∧ (2 ≤ t.bezierCurve.length →
        t.bezierDates.getD 0 0 = node.data.numDate
        ∧ t.bezierDates.getD (t.bezierCurve.length - 1) 0 = child.numDate
        ∧ ∀ i, i < t.bezierCurve.length →
            t.bezierDates.getD i 0
              = node.data.numDate
                + ((i : Rat) / ((t.bezierCurve.length : Rat) - 1))
                  * (child.numDate - node.data.numDate)) := by
  unfold maybeConstructTransmissionEvent at h
  dsimp only at h
  split at h
  case _ o d =>
    split at h
    case _ pair hpair =>
      rw [Prod.mk.injEq] at h
      obtain ⟨h1, -⟩ := h
      injection h1 with h1
      subst h1
      constructor
      · simp [transmissionFromPair]
      · intro hlen
        simp only [transmissionFromPair, constructBcurve, List.length_map,
          List.length_range] at hlen ⊢
        exact interp_dates_spec node.data.numDate child.numDate _ hlen
    case _ hpair =>
      rw [Prod.mk.injEq] at h
      exact absurd h.1 (by simp)
  case _ o hd =>
    rw [Prod.mk.injEq] at h
    exact absurd h.1 (by simp)
  case _ d hd =>
    rw [Prod.mk.injEq] at h
    exact absurd h.1 (by simp)
  case _ hd hd2 =>
    rw [Prod.mk.injEq] at h
    exact absurd h.1 (by simp)

/-- Witness for C8 at the edge "A" → "B": the 3-point curve gives the
midpoint sample the midpoint date. -/
theorem C8_witness :
    wT8.bezierDates.getD 1 0
      = wNodeA.data.numDate
        + ((1 : Rat) / ((wT8.bezierCurve.length : Rat) - 1))
          * (wChildB.numDate - wNodeA.data.numDate) := by
  have h := C8_dates_linear_interpolation wS wNodeA wChildB wGeo wCols wVisOld
    0 0 [] 1 wT8 []
    (by norm_num +decide [maybeConstructTransmissionEvent,
      transmissionFromPair, constructBcurve, maybeGetTransmissionPair,
      leafletLatLongToLayerPoint, wS, wNodeA, wChildB, wGeo, wCols, wVisOld,
      wT8, dummyTrans, setAddOpt, interpolateNumber, NODE_NOT_VISIBLE,
      westBound, eastBound])
  refine (h.2 ?_).2.2 1 ?_
  · norm_num +decide [wT8, maybeConstructTransmissionEvent,
      transmissionFromPair, constructBcurve, maybeGetTransmissionPair,
      leafletLatLongToLayerPoint, wS, wNodeA, wChildB, wGeo, wCols, wVisOld,
      dummyTrans, setAddOpt, interpolateNumber, NODE_NOT_VISIBLE, westBound,
      eastBound]
  · norm_num +decide [wT8, maybeConstructTransmissionEvent,
      transmissionFromPair, constructBcurve, maybeGetTransmissionPair,
      leafletLatLongToLayerPoint, wS, wNodeA, wChildB, wGeo, wCols, wVisOld,
      dummyTrans, setAddOpt, interpolateNumber, NODE_NOT_VISIBLE, westBound,
      eastBound]

/-- C9 (confirmed): the projection update preserves collection lengths and,
entry by entry, recomputes a deme's `coords` from its stored raw latitude and
longitude, and a transmission's `originCoords`/`destinationCoords` from the
stored raw values followed by a curve rebuild with the already-stored
`extend` — every other field (`count`, `color`, `arcs`, `visible`, `id`,
`bezierDates`, raw coordinates, numeric dates) is carried over unchanged, as
the record updates state; the path takes neither index map nor the node,
visibility or color inputs, so it can modify none of them and never
recomputes the color aggregation. -/
theorem C9_projection_update_frame (S : Services) (dd : List Deme)
    (td : List Transmission) :
    (updateDemeDataLatLong S dd).length = dd.length
    ∧ (updateTransmissionDataLatLong S td).length = td.length
    ∧ (∀ i, i < dd.length →
        (updateDemeDataLatLong S dd).getD i dummyDeme
          = { dd.getD i dummyDeme with
              coords := leafletLatLongToLayerPoint
                (dd.getD i dummyDeme).latitude
                (dd.getD i dummyDeme).longitude S.mapProj })
    ∧ (∀ i, i < td.length →
        (updateTransmissionDataLatLong S td).getD i dummyTrans
          = { td.getD i dummyTrans with
              originCoords := leafletLatLongToLayerPoint
                (td.getD i dummyTrans).originLatitude
                (td.getD i dummyTrans).originLongitude S.mapProj,
              destinationCoords := leafletLatLongToLayerPoint
                (td.getD i dummyTrans).destinationLatitude
                (td.getD i dummyTrans).destinationLongitude S.mapProj,
              bezierCurve := constructBcurve S
                (leafletLatLongToLayerPoint
                  (td.getD i dummyTrans).originLatitude
                  (td.getD i dummyTrans).originLongitude S.mapProj)
                (leafletLatLongToLayerPoint
                  (td.getD i dummyTrans).destinationLatitude
                  (td.getD i dummyTrans).destinationLongitude S.mapProj)
                (td.getD i dummyTrans).extend }) := by
  refine ⟨by simp [updateDemeDataLatLong],
    by simp [updateTransmissionDataLatLong], ?_, ?_⟩
  · intro i hi
    simp [updateDemeDataLatLong, List.getD_eq_getElem?_getD,
      List.getElem?_map, List.getElem?_eq_getElem hi]
  · intro i hi
    simp [updateTransmissionDataLatLong, List.getD_eq_getElem?_getD,
      List.getElem?_map, List.getElem?_eq_getElem hi]

/-- Witness for C9 on singleton collections. -/
theorem C9_witness :
    (updateDemeDataLatLong wS [dummyDeme]).getD 0 dummyDeme
      = { ([dummyDeme] : List Deme).getD 0 dummyDeme with
          coords := leafletLatLongToLayerPoint
            (([dummyDeme] : List Deme).getD 0 dummyDeme).latitude
            (([dummyDeme] : List Deme).getD 0 dummyDeme).longitude
            wS.mapProj }
    ∧ (updateTransmissionDataLatLong wS [dummyTrans]).getD 0 dummyTrans
      = { ([dummyTrans] : List Transmission).getD 0 dummyTrans with
          originCoords := leafletLatLongToLayerPoint
            (([dummyTrans] : List Transmission).getD 0
              dummyTrans).originLatitude
            (([dummyTrans] : List Transmission).getD 0
              dummyTrans).originLongitude wS.mapProj,
          destinationCoords := leafletLatLongToLayerPoint
            (([dummyTrans] : List Transmission).getD 0
              dummyTrans).destinationLatitude
            (([dummyTrans] : List Transmission).getD 0
              dummyTrans).destinationLongitude wS.mapProj,
          bezierCurve := constructBcurve wS
            (leafletLatLongToLayerPoint
              (([dummyTrans] : List Transmission).getD 0
                dummyTrans).originLatitude
              (([dummyTrans] : List Transmission).getD 0
                dummyTrans).originLongitude wS.mapProj)
            (leafletLatLongToLayerPoint
              (([dummyTrans] : List Transmission).getD 0
                dummyTrans).destinationLatitude
              (([dummyTrans] : List Transmission).getD 0
                dummyTrans).destinationLongitude wS.mapProj)
            (([dummyTrans] : List Transmission).getD 0 dummyTrans).extend } :=
  ⟨(C9_projection_update_frame wS [dummyDeme] [dummyTrans]).2.2.1 0
      (by norm_num),
   (C9_projection_update_frame wS [dummyDeme] [dummyTrans]).2.2.2 0
      (by norm_num)⟩

/-- C10 (confirmed): a trait value that is `undefined` or the empty string is
treated identically by both builds — the per-node aggregation step leaves the
color map unchanged for such a tip, and the per-edge transmission step leaves
the traversal state unchanged when either endpoint's trait is falsy, so no
deme count and no transmission arises from such nodes. -/
theorem C10_falsy_trait_ignored (S : Services) (geo : String → Option LatLong)
    (visibility : Nat → Nat) (nodeColors : Nat → String) (triplicate : Bool)
    (acc : ColorMap) (i : Nat) (n : TreeNode) (st : TransState)
    (parent : TreeNode) (child : NodeData)
    (hn : n.data.trait = none ∨ n.data.trait = some "")
    (hedge : parent.data.trait = none ∨ parent.data.trait = some ""
      ∨ child.trait = none ∨ child.trait = some "") :
    demeColorStep visibility nodeColors acc (i, n) = acc
    ∧ transmissionEdgeStep S geo nodeColors visibility triplicate parent st
        child = st := by
  constructor
  · apply demeColorStep_falsy
    rcases hn with h | h <;> simp [locTruthy, h]
  · unfold transmissionEdgeStep
    dsimp only
    rw [if_neg]
    rintro ⟨h1, h2, h3⟩
    rcases hedge with h | h | h | h
    · rw [h] at h1
      simp [locTruthy] at h1
    · rw [h] at h1
      simp [locTruthy] at h1
    · rw [h] at h2
      simp [locTruthy] at h2
    · rw [h] at h2
      simp [locTruthy] at h2

/-- Witness for C10: a tip with the empty-string trait. -/
theorem C10_witness :
    demeColorStep wVisOld wCols [] (0, wTipEmpty) = []
    ∧ transmissionEdgeStep wS wGeo wCols wVisOld false wTipEmpty ⟨[], [], []⟩
        wChildB = ⟨[], [], []⟩ :=
  C10_falsy_trait_ignored wS wGeo wVisOld wCols false [] 0 wTipEmpty
    ⟨[], [], []⟩ wTipEmpty wChildB (Or.inr rfl) (Or.inr (Or.inl rfl))

theorem mem_setAddOpt_self (s : List (Option String)) (x : Option String) :
    x ∈ setAddOpt s x := by
  unfold setAddOpt
  split
  case isTrue h => exact h
  case isFalse h => simp

theorem mem_setAddOpt_mono (s : List (Option String)) (x y : Option String)
    (h : x ∈ s) : x ∈ setAddOpt s y := by
  unfold setAddOpt
  split
  · exact h
  · exact List.mem_append_left _ h

theorem foldl_preserve {α β : Type} (P : α → Prop) (f : α → β → α)
    (hstep : ∀ a b, P a → P (f a b)) :
    ∀ (l : List β) (a : α), P a → P (l.foldl f a)
  | [], _, h => h
  | b :: l, a, h => foldl_preserve P f hstep l (f a b) (hstep a b h)

theorem setupDemeStep_only_good (S : Services) (geo : String → Option LatLong)
    (pieChart : Bool) (offset : Rat)
    (st : List Deme × List (String × List Nat))
    (entry : String × List (String × ColorCount))
    (h : ∀ dm ∈ st.1, (geo dm.name).isSome = true) :
    ∀ dm ∈ (setupDemeStep S geo pieChart offset st entry).1,
      (geo dm.name).isSome = true := by
  unfold setupDemeStep
  dsimp only
  split
  case isTrue hcond =>
    intro dm hdm
    rw [List.mem_append] at hdm
    rcases hdm with hdm | hdm
    · exact h dm hdm
    · rw [List.mem_singleton] at hdm
      subst hdm
      obtain ⟨-, -, hgood⟩ := hcond
      split <;> exact hgood
  case isFalse =>
    exact h

/-- Every deme emitted by `setupDemeData` names a location present in the
geographic lookup table: a missing location is skipped. -/
theorem setupDemeData_only_good (S : Services) (nodes : List TreeNode)
    (visibility : Nat → Nat) (nodeColors : Nat → String) (triplicate : Bool)
    (geo : String → Option LatLong) (pieChart : Bool) :
    ∀ dm ∈ (setupDemeData S nodes visibility nodeColors triplicate geo
        pieChart).1, (geo dm.name).isSome = true := by
  unfold setupDemeData
  dsimp only
  exact foldl_preserve (fun st => ∀ dm ∈ st.1, (geo dm.name).isSome = true)
    (fun st offset => List.foldl (setupDemeStep S geo pieChart offset) st
      (getColorsForAllDemes nodes visibility nodeColors))
    (fun st offset hst =>
      foldl_preserve (fun st => ∀ dm ∈ st.1, (geo dm.name).isSome = true)
        (setupDemeStep S geo pieChart offset)
        (fun st2 entry hst2 =>
          setupDemeStep_only_good S geo pieChart offset st2 entry hst2)
        (getColorsForAllDemes nodes visibility nodeColors) st hst)
    (if triplicate = true then [-360, 0, 360] else [0]) ([], [])
    (fun dm hdm => absurd hdm (by simp))

/-- A failed origin lookup yields no candidate and records the origin's
location name. -/
theorem construct_missing_origin (S : Services) (node : TreeNode)
    (child : NodeData) (geo : String → Option LatLong)
    (nodeColors : Nat → String) (visibility : Nat → Nat) (oO oD : Rat)
    (missing : List (Option String)) (extend : Nat)
    (h : node.data.trait.bind geo = none) :
    (maybeConstructTransmissionEvent S node child geo nodeColors visibility
      oO oD missing extend).1 = none
    ∧ node.data.trait ∈ (maybeConstructTransmissionEvent S node child geo
      nodeColors visibility oO oD missing extend).2 := by
  unfold maybeConstructTransmissionEvent
  dsimp only
  rw [h]
  simp only [Option.isSome_none, Bool.false_eq_true, if_false]
  cases hd : child.trait.bind geo with
  | none =>
    simp only [Option.isSome_none, Bool.false_eq_true, if_false]
    exact ⟨by trivial, mem_setAddOpt_mono _ _ _ (mem_setAddOpt_self missing _)⟩
  | some d =>
    simp only [Option.isSome_some, if_true]
    exact ⟨by trivial, mem_setAddOpt_self missing _⟩

/-- A failed destination lookup yields no candidate and records the
destination's location name. -/
theorem construct_missing_destination (S : Services) (node : TreeNode)
    (child : NodeData) (geo : String → Option LatLong)
    (nodeColors : Nat → String) (visibility : Nat → Nat) (oO oD : Rat)
    (missing : List (Option String)) (extend : Nat)
    (h : child.trait.bind geo = none) :
    (maybeConstructTransmissionEvent S node child geo nodeColors visibility
      oO oD missing extend).1 = none
    ∧ child.trait ∈ (maybeConstructTransmissionEvent S node child geo
      nodeColors visibility oO oD missing extend).2 := by
  unfold maybeConstructTransmissionEvent
  dsimp only
  rw [h]
  simp only [Option.isSome_none, Bool.false_eq_true, if_false]
  cases ho : node.data.trait.bind geo with
  | none =>
    simp only [Option.isSome_none, Bool.false_eq_true, if_false]
    exact ⟨by trivial, mem_setAddOpt_self _ _⟩
  | some o =>
    simp only [Option.isSome_some, if_true]
    exact ⟨by trivial, mem_setAddOpt_self missing _⟩

/-- C5 counterexample: a lone tip at location "A" with an empty lookup
table — the deme build skips the location (no deme is emitted), yet the
returned `demesMissingLatLongs` is empty: the deme build does not accumulate
into the returned diagnostics set (it only logs a console warning). -/
theorem C5_counterexample :
    (alistGet (getColorsForAllDemes [wTipA] wVisOld wCols) "A").isSome = true
    ∧ wGeoNone "A" = none
    ∧ (createDemeAndTransmissionData wS [wTipA] wVisOld wCols false wGeoNone
        false).demeData = []
    ∧ (createDemeAndTransmissionData wS [wTipA] wVisOld wCols false wGeoNone
        false).demesMissingLatLongs = [] := by
  refine ⟨by decide, rfl, by decide, by decide⟩

/-- C5 (corrected): for a location absent from the lookup table, the deme
build skips emission (every emitted deme's location is present in the table)
and the transmission build skips the candidate while accumulating the
offending endpoint's name into `demesMissingLatLongs`; both continue
processing.  But only the transmission build accumulates into the returned
set — the deme build merely logs, as the counterexample shows. -/
theorem C5_amended_missing_geography (S : Services) (nodes : List TreeNode)
    (visibility : Nat → Nat) (nodeColors : Nat → String) (triplicate : Bool)
    (geo : String → Option LatLong) (pieChart : Bool) (node : TreeNode)
    (child : NodeData) (oO oD : Rat) (missing : List (Option String))
    (extend : Nat) :
    (∀ dm ∈ (setupDemeData S nodes visibility nodeColors triplicate geo
        pieChart).1, (geo dm.name).isSome = true)
    ∧ (node.data.trait.bind geo = none →
        (maybeConstructTransmissionEvent S node child geo nodeColors
          visibility oO oD missing extend).1 = none
        ∧ node.data.trait ∈ (maybeConstructTransmissionEvent S node child geo
          nodeColors visibility oO oD missing extend).2)
    ∧ (child.trait.bind geo = none →
        (maybeConstructTransmissionEvent S node child geo nodeColors
          visibility oO oD missing extend).1 = none
        ∧ child.trait ∈ (maybeConstructTransmissionEvent S node child geo
          nodeColors visibility oO oD missing extend).2) :=
  ⟨setupDemeData_only_good S nodes visibility nodeColors triplicate geo
      pieChart,
   construct_missing_origin S node child geo nodeColors visibility oO oD
      missing extend,
   construct_missing_destination S node child geo nodeColors visibility oO oD
      missing extend⟩

/-- Witness for C5's amended theorem: missing origin geography is recorded
and suppresses the candidate. -/
theorem C5_amended_witness :
    (maybeConstructTransmissionEvent wS wNodeA wChildB wGeoNone wCols wVisOld
      0 0 [] 1).1 = none
    ∧ (some "A") ∈ (maybeConstructTransmissionEvent wS wNodeA wChildB wGeoNone
      wCols wVisOld 0 0 [] 1).2 :=
  (C5_amended_missing_geography wS [wTipA] wVisOld wCols false wGeoNone false
    wNodeA wChildB 0 0 [] 1).2.1 rfl

theorem exOk_map {α β : Type} (f : α → β) (x : Except String α) :
    exOk (Except.map f x) = exOk x := by
  cases x <;> rfl

/-- The deme update's entry fold errors whenever some location of the color
map is absent from `demeIndices`. -/
theorem updateDeme_fold_error (S : Services) (di : List (String × List Nat))
    (pie : Bool) :
    ∀ (entries : ColorMap) (dd0 : List Deme) (loc : String),
      (alistGet entries loc).isSome = true → alistGet di loc = none →
      exOk (List.foldlM (updateDemeEntry S di pie) dd0 entries) = false := by
  intro entries
  induction entries with
  | nil =>
    intro dd0 loc h _
    simp [alistGet] at h
  | cons e rest ih =>
    intro dd0 loc h hmiss
    obtain ⟨k, v⟩ := e
    rw [List.foldlM_cons]
    by_cases hk : k = loc
    · subst hk
      have hstep : updateDemeEntry S di pie dd0 (k, v)
          = Except.error "TypeError: demeIndices[location] is undefined" := by
        unfold updateDemeEntry
        dsimp only
        rw [hmiss]
      rw [hstep]
      rfl
    · have h2 : (alistGet rest loc).isSome = true := by
        unfold alistGet at h
        rw [if_neg hk] at h
        exact h
      cases hstep : updateDemeEntry S di pie dd0 (k, v) with
      | error e => rfl
      | ok dd1 =>
        show exOk (List.foldlM (updateDemeEntry S di pie) dd1 rest) = false
        exact ih dd1 loc h2 hmiss

theorem updateDemeAtIndex_blended_ok (S : Services) (nvis : Nat)
    (cc : List (String × ColorCount)) (dd : List Deme) (i : Nat)
    (h : i < dd.length) :
    ∃ dd2, updateDemeAtIndex S false nvis cc dd i = Except.ok dd2
      ∧ dd2.length = dd.length := by
  unfold updateDemeAtIndex
  cases hg : dd.get? i with
  | none =>
    rw [List.get?_eq_none] at hg
    omega
  | some deme =>
    exact ⟨_, rfl, by simp⟩

theorem updateDeme_idxfold_ok (S : Services) (nvis : Nat)
    (cc : List (String × ColorCount)) :
    ∀ (idxs : List Nat) (dd : List Deme), (∀ i ∈ idxs, i < dd.length) →
      ∃ dd2, List.foldlM (updateDemeAtIndex S false nvis cc) dd idxs
        = Except.ok dd2 ∧ dd2.length = dd.length := by
  intro idxs
  induction idxs with
  | nil =>
    intro dd _
    exact ⟨dd, rfl, rfl⟩
  | cons i rest ih =>
    intro dd h
    obtain ⟨dd1, h1, hlen1⟩ := updateDemeAtIndex_blended_ok S nvis cc dd i
      (h i (by simp))
    obtain ⟨dd2, h2, hlen2⟩ := ih dd1
      (fun j hj => hlen1 ▸ h j (List.mem_cons_of_mem _ hj))
    refine ⟨dd2, ?_, hlen2.trans hlen1⟩
    rw [List.foldlM_cons, h1]
    exact h2

theorem updateDemeEntry_blended_ok (S : Services)
    (di : List (String × List Nat)) (entry : String × List (String × ColorCount))
    (dd : List Deme) (idxs : List Nat) (hidxs : alistGet di entry.1 = some idxs)
    (hlt : ∀ i ∈ idxs, i < dd.length) :
    ∃ dd2, updateDemeEntry S di false dd entry = Except.ok dd2
      ∧ dd2.length = dd.length := by
  unfold updateDemeEntry
  dsimp only
  rw [hidxs]
  exact updateDeme_idxfold_ok S _ _ idxs dd hlt

/-- The deme update's entry fold succeeds in blended mode when every color-map
location is present in `demeIndices` with in-range indices. -/
theorem updateDeme_fold_ok (S : Services) (di : List (String × List Nat)) :
    ∀ (entries : ColorMap) (dd : List Deme),
      (∀ e ∈ entries, (alistGet di e.1).isSome = true
        ∧ ∀ i ∈ (alistGet di e.1).getD [], i < dd.length) →
      exOk (List.foldlM (updateDemeEntry S di false) dd entries) = true := by
  intro entries
  induction entries with
  | nil =>
    intro dd _
    rfl
  | cons e rest ih =>
    intro dd h
    obtain ⟨hsome, hlt⟩ := h e (by simp)
    obtain ⟨idxs, hidxs⟩ := Option.isSome_iff_exists.mp hsome
    have hlt2 : ∀ i ∈ idxs, i < dd.length := by
      rw [hidxs] at hlt
      simpa using hlt
    obtain ⟨dd2, h2, hlen⟩ := updateDemeEntry_blended_ok S di e dd idxs hidxs
      hlt2
    rw [List.foldlM_cons, h2]
    show exOk (List.foldlM (updateDemeEntry S di false) dd2 rest) = true
    apply ih
    intro e2 he2
    obtain ⟨hs, hl⟩ := h e2 (List.mem_cons_of_mem _ he2)
    refine ⟨hs, ?_⟩
    rw [hlen]
    exact hl

/-- C4 counterexample: a built dataset whose deme collection skipped location
"A" (its geography was missing), updated with nodes that still have a tip at
"A": `demeIndices["A"]` is `undefined`, the unguarded `.forEach` throws, and
the exception escapes `updateDemeAndTransmissionDataColAndVis` to the
caller — refuting "no build or update operation throws" for the stale-index
case. -/
theorem C4_counterexample :
    exOk (updateDemeAndTransmissionDataColAndVis wS (some []) (some []) [] []
      [wTipA] wVisOld wCols false) = false := by
  decide

/-- C4 (corrected): missing geography during the builds and a missing id in
`transmissionIndices` during the transmission update never throw (for the
latter, the guarded lookup is also unreachable because of the line-451 slip,
so that update is the identity and warning-free); but the deme update throws
to the caller precisely in the stale-index situation: the composite
color/visibility update errors when some location of the recomputed color map
is absent from `demeIndices`, and succeeds (blended mode, in-range indices)
when every location is present. -/
theorem C4_amended_error_policy (S : Services) (dd : List Deme)
    (td : List Transmission) (di ti : List (String × List Nat))
    (nodes : List TreeNode) (visibility : Nat → Nat)
    (nodeColors : Nat → String) :
    ((∃ loc, (alistGet (getColorsForAllDemes nodes visibility nodeColors)
          loc).isSome = true
        ∧ alistGet di loc = none) →
      exOk (updateDemeAndTransmissionDataColAndVis S (some dd) (some td) di ti
        nodes visibility nodeColors false) = false)
    ∧ ((∀ e ∈ getColorsForAllDemes nodes visibility nodeColors,
          (alistGet di e.1).isSome = true
          ∧ ∀ i ∈ (alistGet di e.1).getD [], i < dd.length) →
      exOk (updateDemeAndTransmissionDataColAndVis S (some dd) (some td) di ti
        nodes visibility nodeColors false) = true)
    ∧ (updateTransmissionDataColAndVis td ti nodes visibility nodeColors
        = (td, [])) := by
  refine ⟨?_, ?_, colvis_update_transmissions_noop td ti nodes visibility
    nodeColors⟩
  · rintro ⟨loc, hin, hmiss⟩
    unfold updateDemeAndTransmissionDataColAndVis
    rw [exOk_map]
    unfold updateDemeDataColAndVis
    exact updateDeme_fold_error S di false _ dd loc hin hmiss
  · intro h
    unfold updateDemeAndTransmissionDataColAndVis
    rw [exOk_map]
    unfold updateDemeDataColAndVis
    exact updateDeme_fold_ok S di _ dd h

/-- Witness for C4's amended theorem: the stale-index input errors, the
fully-indexed input succeeds. -/
theorem C4_amended_witness :
    exOk (updateDemeAndTransmissionDataColAndVis wS (some []) (some []) [] []
      [wTipB] wVisOld wCols false) = false
    ∧ exOk (updateDemeAndTransmissionDataColAndVis wS (some wDemeBuild.1)
      (some []) wDemeBuild.2 [] [wTipA] wVisNew wCols false) = true := by
  constructor
  · exact (C4_amended_error_policy wS [] [] [] [] [wTipB] wVisOld wCols).1
      ⟨"B", by decide, by decide⟩
  · refine (C4_amended_error_policy wS wDemeBuild.1 [] wDemeBuild.2 []
      [wTipA] wVisNew wCols).2.1 ?_
    norm_num +decide [wDemeBuild, setupDemeData, setupDemeStep,
      getColorsForAllDemes, demeColorStep, buildArcs, alistGet, alistSet,
      lookupColorCount, wS, wTipA, wGeo, wVisOld, wVisNew, wCols, locTruthy,
      NODE_NOT_VISIBLE, leafletLatLongToLayerPoint, westBound, eastBound]

end MapHelpers
